import Mathlib

/-!
Verification development for the kyyjibo-dos Hamiltonian player.

The definitions below are a shallow embedding of the second (active)
`HamiltonianPlayer` class in src/demo/player/HamiltonianPlayer.ts
(starting at line 1627), together with the module-level helpers it uses.
JavaScript numbers are modelled as `ℚ` where fractional arithmetic occurs
(timing, scores) and as `ℕ`/`ℤ` where only integers flow; `Map`/`Set`
become functions/`Finset`; asset URL strings become structured keys; the
external randomness source and JS `Math.random` become explicit oracle
arguments, so theorems quantify over every possible draw.
-/

namespace Kyyjibo

/-- Track segment type (src/music/types `TrackType`): the intro asset is the
`lead` segment and the main asset is the `body` segment. -/
inductive TrackType where
  | lead
  | body
deriving DecidableEq, Repr

/-- Modelled from the spec: `BEAT_COUNTS` lives in src/music/types, which is not
among the provided sources. Per the repository README ("Intro: 16 beats",
"Main: 64 beats") the lead segment is 16 beats and the body segment 64. -/
def BEAT_COUNTS : TrackType → ℚ
  | .lead => 16
  | .body => 64

/-- Module-level `calculateTrackDuration` (line 1553): duration in seconds of a
segment at a given tempo, `beats * 60 / tempo`. -/
def calculateTrackDuration (tempo : ℕ) (type : TrackType) : ℚ :=
  let secondsPerBeat : ℚ := 60 / (tempo : ℚ)
  let beats := BEAT_COUNTS type
  beats * secondsPerBeat

/-- Catalog entry (src/music/types `Song`). -/
structure Song where
  id : ℕ
  title : String
  artist : String
  key : ℤ
  bpm : ℕ
deriving DecidableEq, Repr

/-- Abstract asset key standing for the URL string assembled in `createTrack`
(`MUSIC_BASE_URL` + zero-padded song id + segment suffix + extension): the
mapping from (song id, segment) to the URL string is injective, so the
structured key is an equivalent cache/dedup key. -/
structure AssetUrl where
  songId : ℕ
  seg : TrackType
deriving DecidableEq, Repr

/-- `Track` interface (line 1562). -/
structure Track where
  song : Song
  key : ℤ
  tempo : ℕ
  introUrl : AssetUrl
  mainUrl : AssetUrl
  introDuration : ℚ
  mainDuration : ℚ
deriving DecidableEq, Repr

/-- `TrackPair` interface (line 1575); tracks 3 and 4 are the optional hidden
tracks. -/
structure TrackPair where
  track1 : Track
  track2 : Track
  track3 : Option Track := none
  track4 : Option Track := none
  key : ℤ
  tempo : ℕ
deriving DecidableEq, Repr

/-- `createTrack` (line 2149): binds a song to the pair's key/tempo and derives
ideal segment durations from the tempo. -/
def createTrack (song : Song) (key : ℤ) (tempo : ℕ) : Track :=
  { song := song
    key := key
    tempo := tempo
    introUrl := ⟨song.id, .lead⟩
    mainUrl := ⟨song.id, .body⟩
    introDuration := calculateTrackDuration tempo .lead
    mainDuration := calculateTrackDuration tempo .body }

/-- `createTrackPair` (line 2172). -/
def createTrackPair (song1 song2 : Song) (key : ℤ) (tempo : ℕ) : TrackPair :=
  { track1 := createTrack song1 key tempo
    track2 := createTrack song2 key tempo
    key := key
    tempo := tempo }

/-- Attachment of hidden tracks 3/4 to an assembled pair, as done in `play`
(lines 3060-3062, 3075-3077) and `scheduleNextPair`. -/
def addHiddenTracks (pair : TrackPair) (t3 t4 : Option Track) : TrackPair :=
  { pair with track3 := t3, track4 := t4 }

/-- The three absolute times `playPair` computes for a pair (lines 3139-3146). -/
structure PairSchedule where
  startTime : ℚ
  mainStartTime : ℚ
  pairEndTime : ℚ
deriving DecidableEq, Repr

/-- Timing computation of `playPair` (lines 3133-3146): the decoded buffers
(here represented only by their durations, which is all a schedule could use)
are loaded first but the schedule is computed purely from the track's ideal
durations; the buffer-duration argument is deliberately unused, mirroring the
source comment "schedule based on tempo math, not actual buffer duration". -/
def playPairSchedule (pair : TrackPair) (pairStartTime : ℚ)
    (bufferDurations : List ℚ) : PairSchedule :=
  let _ := bufferDurations
  let idealIntroDuration := pair.track1.introDuration
  let idealMainDuration := pair.track1.mainDuration
  let mainStartTime := pairStartTime + idealIntroDuration
  let pairEndTime := mainStartTime + idealMainDuration
  { startTime := pairStartTime
    mainStartTime := mainStartTime
    pairEndTime := pairEndTime }

/-- The two mode flags of the player (fields `mannieFreshMode`, line 1647, and
`eightZeroEightMode`, line 1663); the `PlayerState` snapshot mirrors them on
every `updateState`, so the invariant on these fields is the invariant the
snapshot reports. -/
structure ModeFlags where
  mannieFreshMode : Bool
  eightZeroEightMode : Bool
deriving DecidableEq, Repr

mutual

/-- `toggleMannieFreshMode` (lines 2386-2402), restricted to its effect on the
mode flags (gain fades, interval bookkeeping and the state snapshot copy carry
no extra flag information). The mutual recursion of the two toggles is indexed
by fuel; the source's recursion depth never exceeds two because each toggle
re-checks the other flag before recursing (proved below as fuel stability). -/
def toggleMannieFreshModeF : ℕ → ModeFlags → ModeFlags
  | 0, s => s
  | fuel + 1, s =>
    let s1 := if !s.mannieFreshMode && s.eightZeroEightMode then
        toggle808ModeF fuel s
      else s
    { s1 with mannieFreshMode := !s1.mannieFreshMode }

/-- `toggle808Mode` (lines 2410-2433), restricted to its effect on the mode
flags. -/
def toggle808ModeF : ℕ → ModeFlags → ModeFlags
  | 0, s => s
  | fuel + 1, s =>
    let s1 := if !s.eightZeroEightMode && s.mannieFreshMode then
        toggleMannieFreshModeF fuel s
      else s
    { s1 with eightZeroEightMode := !s1.eightZeroEightMode }

end

/-- Public `toggleMannieFreshMode`: fuel 2 covers the at-most-one nested call. -/
def toggleMannieFreshMode (s : ModeFlags) : ModeFlags :=
  toggleMannieFreshModeF 2 s

/-- Public `toggle808Mode`: fuel 2 covers the at-most-one nested call. -/
def toggle808Mode (s : ModeFlags) : ModeFlags :=
  toggle808ModeF 2 s

/-- Initial mode flags: the second class initialises `mannieFreshMode := true`
(line 1647) and `eightZeroEightMode := false` (line 1663). -/
def initialModeFlags : ModeFlags :=
  { mannieFreshMode := true, eightZeroEightMode := false }

/-- A user-driven toggle call. -/
inductive ModeOp where
  | toggleMF
  | toggle808
deriving DecidableEq, Repr

/-- Application of one toggle call. -/
def applyModeOp (s : ModeFlags) : ModeOp → ModeFlags
  | .toggleMF => toggleMannieFreshMode s
  | .toggle808 => toggle808Mode s

/-- Fuel 2 is exact for the toggles: with fuel at least 2 the result no longer
depends on the fuel, for every one of the four flag states, so the fuel-indexed
definitions agree with the source's unbounded recursion. -/
theorem toggleF_fuel_stable :
    ∀ s : ModeFlags, toggleMannieFreshModeF 2 s = toggleMannieFreshModeF 3 s ∧
      toggle808ModeF 2 s = toggle808ModeF 3 s := by
  intro ⟨mf, e⟩
  cases mf <;> cases e <;> exact ⟨rfl, rfl⟩

/-- The fixed harmonic relationship list of `getMusicallyRelatedKey`
(lines 2356-2368). -/
def keyRelationships : List ℤ := [7, 5, -7, -5, 3, -3, 6, 2, -2, 4, -4]

/-- `getMusicallyRelatedKey` (lines 2355-2379) with the externally drawn
relationship passed explicitly (the source draws it from the randomness
service, `qrng.getChoice(relationships)`). JS `%` truncates toward zero, which
is `Int.tmod`; a negative remainder is then shifted by 12 and the 1-indexed
result is clamped into the valid key range. -/
def getMusicallyRelatedKey (baseKey : ℤ) (relationship : ℤ) : ℤ :=
  let newKey := Int.tmod (baseKey - 1 + relationship) 12
  let newKey := if newKey < 0 then newKey + 12 else newKey
  max 1 (min 10 (newKey + 1))

/-- Outcome of an audio load: success or a rejection message. -/
abbrev LoadResult := Except String Unit

mutual

/-- Settlement of the promise returned by `performLoad` (lines 3502-3589) for a
fixed URL whose cache entry is empty, evaluated under a fuel bound: `none`
means the promise has not settled within `fuel` await-resolution steps. The
`fetchOk` oracle says whether the fetch+decode of a given retryCount attempt
succeeds. On failure with `retryCount < MAX_RETRIES` (3) the source waits
`2^retryCount * 500` ms and returns `this.loadAudioBuffer(url, retryCount+1)`;
by then the pending-loads map holds the original promise (it is inserted right
after `performLoad` is first invoked, line 3487, and removed only when that
promise settles), so the recursive call runs with the pending entry set. -/
def performLoadR (fetchOk : ℕ → Bool) (retryCount : ℕ) : ℕ → Option LoadResult
  | 0 => none
  | fuel + 1 =>
    if fetchOk retryCount then some (.ok ())
    else if retryCount < 3 then loadAudioBufferR fetchOk true (retryCount + 1) fuel
    else some (.error "Failed to load after 3 retries")

/-- Settlement of the promise returned by `loadAudioBuffer` (lines 3473-3497)
for the same fixed URL. `pendingSet` says whether `pendingLoads` already holds
a promise for the URL; that stored promise is always the one created by the
first external call, which had `retryCount = 0` (only calls that find the map
empty store a promise, and external callers use the default retryCount 0), so
awaiting the stored promise is awaiting `performLoad(url, 0)`. -/
def loadAudioBufferR (fetchOk : ℕ → Bool) (pendingSet : Bool) (retryCount : ℕ) :
    ℕ → Option LoadResult
  | 0 => none
  | fuel + 1 =>
    if pendingSet then performLoadR fetchOk 0 fuel
    else performLoadR fetchOk retryCount fuel

end

/-- Modelled from the spec: the intended retry loop behind the claim — each
failed attempt backs off `2^retryCount * 500` ms and actually refetches,
rejecting once `MAX_RETRIES` (3) retries are exhausted. Returns the final
settlement together with the list of backoff delays (in ms) taken. -/
def performLoadDirect (fetchOk : ℕ → Bool) (retryCount : ℕ) :
    LoadResult × List ℕ :=
  if fetchOk retryCount then (.ok (), [])
  else if h : retryCount < 3 then
    let rest := performLoadDirect fetchOk (retryCount + 1)
    (rest.1, (2 ^ retryCount * 500) :: rest.2)
  else (.error "Failed to load after 3 retries", [])
termination_by 4 - retryCount

/-- JS `toLowerCase` on a string's code points (artist names are ASCII, where
JS and ASCII lowering agree); results are compared as code-point lists. -/
def lowerCodes (s : String) : List ℕ :=
  s.toList.map fun c =>
    let n := c.toNat
    if 65 ≤ n ∧ n ≤ 90 then n + 32 else n

/-- JS `String.prototype.includes` on code-point lists: `sub` occurs as a
contiguous run of `s`. -/
def listIncludes (s sub : List ℕ) : Bool :=
  (List.range (s.length + 1)).any fun i => sub.isPrefixOf (s.drop i)

/-- `artistsMatch` (lines 1813-1817): case-insensitive mutual substring
containment. -/
def artistsMatch (artist1 artist2 : String) : Bool :=
  let a1 := lowerCodes artist1
  let a2 := lowerCodes artist2
  listIncludes a1 a2 || listIncludes a2 a1

/-- `getPairId` (lines 1822-1825): the source sorts the two numeric ids and
joins them with a dash; the ordered pair (min, max) is the same canonical key
(the dash-joined string of two numbers is injective in the sorted pair). -/
def getPairId (song1 song2 : Song) : ℕ × ℕ :=
  (min song1.id song2.id, max song1.id song2.id)

/-- The selection-relevant mutable fields of the player (lines 1652-1656):
`playedSongIds`, `playedPairs`, `recentSongs`, `recentArtists`, plus the song
library. -/
structure SelState where
  songs : List Song
  playedSongIds : Finset ℕ
  playedPairs : Finset (ℕ × ℕ)
  recentSongs : List Song
  recentArtists : List String
deriving DecidableEq

/-- `isPairPlayed` (lines 1830-1832). -/
def isPairPlayed (st : SelState) (song1 song2 : Song) : Bool :=
  decide (getPairId song1 song2 ∈ st.playedPairs)

/-- Tail of `scoreSong` after the partner checks (lines 1938-1962): recency
penalty, unplayed bonus and the random variance drawn from `Math.random() * 80`
(passed in as `randomVariance`). -/
def scoreSongTail (st : SelState) (song : Song) (randomVariance : ℚ)
    (score : ℚ) : ℚ :=
  let score := match st.recentSongs.findIdx? (fun s => decide (s.id = song.id)) with
    | some recentIndex => score - max 0 ((50 : ℚ) - (recentIndex : ℚ) * 2)
    | none => score
  let score := if song.id ∈ st.playedSongIds then score else score + 200
  score + randomVariance

/-- `scoreSong` (lines 1845-1963). The per-call `Math.floor(Math.random()*6)`
harmonic-lens draw and the `Math.random()*80` variance draw are passed in as
`harmonicApproach` and `randomVariance`; a `harmonicApproach` outside 0-5
(unreachable in the source) falls through the switch unchanged. The partner
checks return the `-1000` sentinel immediately, skipping every later term. -/
def scoreSong (st : SelState) (song : Song) (tempo : ℕ) (key : ℤ)
    (partnerSong : Option Song) (avoidArtists : List String)
    (harmonicApproach : ℕ) (randomVariance : ℚ) : ℚ :=
  let score : ℚ := 100
  let score := if song.bpm = tempo then score + 60
    else
      let tempoDiff := ((song.bpm : ℤ) - (tempo : ℤ)).natAbs
      if tempoDiff ≤ 6 then score + 20
      else if tempoDiff ≤ 12 then score - 10
      else if tempoDiff ≤ 18 then score - 30
      else score - 50
  let keyDiff : ℤ := |song.key - key|
  let circularDiff : ℤ := min keyDiff (12 - keyDiff)
  let score := if song.key = key then score + 50
    else match harmonicApproach with
      | 0 =>
        if circularDiff = 5 ∨ circularDiff = 7 then score + 30
        else if circularDiff = 3 ∨ circularDiff = 4 then score + 20
        else if circularDiff = 2 then score + 10
        else score - circularDiff * 3
      | 1 =>
        if circularDiff = 2 ∨ circularDiff = 5 ∨ circularDiff = 9 then score + 35
        else if circularDiff = 7 then score + 25
        else score - circularDiff * 4
      | 2 =>
        if circularDiff = 2 ∨ circularDiff = 4 ∨ circularDiff = 6 then score + 30
        else if circularDiff = 3 ∨ circularDiff = 5 then score + 20
        else score - circularDiff * 3
      | 3 =>
        if circularDiff = 6 then score + 35
        else if circularDiff = 3 ∨ circularDiff = 9 then score + 25
        else score - circularDiff * 4
      | 4 =>
        if circularDiff = 8 ∨ circularDiff = 9 then score + 30
        else if circularDiff = 2 ∨ circularDiff = 11 then score + 25
        else score - circularDiff * 3
      | 5 =>
        if circularDiff = 1 then score + 35
        else if circularDiff = 2 then score + 30
        else if circularDiff = 5 ∨ circularDiff = 7 then score + 20
        else score - circularDiff * 3
      | _ => score
  let score := avoidArtists.foldl
    (fun sc avoidArtist => if artistsMatch song.artist avoidArtist then sc - 80 else sc)
    score
  match partnerSong with
  | some partner =>
    if artistsMatch song.artist partner.artist then -1000
    else if isPairPlayed st song partner then -1000
    else scoreSongTail st song randomVariance (score + 30)
  | none => scoreSongTail st song randomVariance score

/-- Modelled from the spec: `EnhancedRandom.getChoice` (the external randomness
service, not among the provided sources) returns one uniformly chosen element
of a list; the draw is abstracted as an arbitrary oracle index taken modulo
the length, which ranges over exactly the choices the service can make. -/
def getChoice (pick : ℕ) (l : List α) : Option α :=
  l[pick % l.length]?

/-- Score-filter-sort pipeline used at each stage of `getNextSongSmart`
(lines 1988-1994, 2002-2008, 2018-2023): score every candidate, drop scores not
above the `-1000` sentinel, sort descending by score. JS `sort` with the
`b.score - a.score` comparator is the stable descending sort, and a stable
sort under a total comparator is unique, so the stable
`List.insertionSort (fun a b => b.2 ≤ a.2)` is that sort. The `rand` oracle
supplies the (harmonic lens, variance) draw of each candidate's scoring call. -/
def scoredShortlist (st : SelState) (candidates : List Song) (tempo : ℕ)
    (key : ℤ) (partnerSong : Option Song) (avoidArtists : List String)
    (rand : ℕ → ℕ × ℚ) : List (Song × ℚ) :=
  ((candidates.enum.map fun p =>
      (p.2, scoreSong st p.2 tempo key partnerSong avoidArtists
        (rand p.1).1 (rand p.1).2)).filter
    fun item => decide (-1000 < item.2)).insertionSort
    fun a b => b.2 ≤ a.2

/-- Candidate-pool construction of `getNextSongSmart` (lines 1975-1985):
unplayed songs at the exact tempo when any exist, otherwise all songs at the
tempo; ids-to-avoid are excluded when `unplayedSongs` and `allSongsAtTempo`
are filtered. -/
def buildCandidatePool (songs : List Song) (played : Finset ℕ)
    (avoidSongIds : List ℕ) (tempo : ℕ) : List Song :=
  let unplayedSongs := songs.filter fun song =>
    decide (song.id ∉ played) && decide (song.id ∉ avoidSongIds)
  let unplayedAtTempo := unplayedSongs.filter fun song => decide (song.bpm = tempo)
  let allSongsAtTempo := songs.filter fun song =>
    decide (song.bpm = tempo) && decide (song.id ∉ avoidSongIds)
  if 0 < unplayedAtTempo.length then unplayedAtTempo else allSongsAtTempo

/-- Candidate pool as the claim describes it (refinement reference): all
unplayed songs whose bpm equals the target tempo when at least one such song
exists, otherwise all songs at the target tempo regardless of played status,
ids-to-avoid excluded in both cases. -/
def candidatePoolSpec (songs : List Song) (played : Finset ℕ)
    (avoidSongIds : List ℕ) (tempo : ℕ) : List Song :=
  let unplayedPool := songs.filter fun song =>
    decide (song.bpm = tempo) && decide (song.id ∉ played) &&
      decide (song.id ∉ avoidSongIds)
  if unplayedPool ≠ [] then unplayedPool
  else songs.filter fun song =>
    decide (song.bpm = tempo) && decide (song.id ∉ avoidSongIds)

/-- Final fall-through stage of `getNextSongSmart` (lines 2017-2035): re-score
with artist avoidance removed; if still empty, return the first candidate
unconditionally (`candidates[0]!`, which is `undefined` — here `none` — when
the candidate list is empty); otherwise draw from the top 20. -/
def relaxedStage (st : SelState) (candidates : List Song) (tempo : ℕ) (key : ℤ)
    (partnerSong : Option Song) (rand : ℕ → ℕ × ℚ) (pick : ℕ) : Option Song :=
  let relaxed := scoredShortlist st candidates tempo key partnerSong [] rand
  if relaxed.length = 0 then candidates.head?
  else (getChoice pick (relaxed.take (min 20 relaxed.length))).map Prod.fst

/-- Randomness consumed by one `getNextSongSmart` call: a (lens, variance)
oracle per scoring stage and a choice index per shortlist draw. -/
structure SmartRand where
  r1 : ℕ → ℕ × ℚ
  r2 : ℕ → ℕ × ℚ
  r3 : ℕ → ℕ × ℚ
  pick1 : ℕ
  pick2 : ℕ
  pick3 : ℕ

/-- `getNextSongSmart` (lines 1974-2048). Returns the selected song (`none`
models the `undefined` produced by `candidates[0]!` on an empty pool) together
with the updated selection state. The source's reference-equality test
`candidates === unplayedAtTempo` holds exactly when `unplayedAtTempo` was
non-empty (only then was `candidates` bound to that array), and in its branch
`candidates` is reassigned to `allSongsAtTempo` before the fall-through to the
relaxed stage; the played-sets reset runs only on the main (non-empty initial
shortlist) path, right before returning the drawn song. -/
def getNextSongSmart (st : SelState) (tempo : ℕ) (key : ℤ)
    (partnerSong : Option Song) (avoidArtists : List String)
    (avoidSongIds : List ℕ) (rnd : SmartRand) : Option Song × SelState :=
  let unplayedSongs := st.songs.filter fun song =>
    decide (song.id ∉ st.playedSongIds) && decide (song.id ∉ avoidSongIds)
  let shouldResetPlayedSongs := unplayedSongs.length < 20
  let unplayedAtTempo := unplayedSongs.filter fun song => decide (song.bpm = tempo)
  let allSongsAtTempo := st.songs.filter fun song =>
    decide (song.bpm = tempo) && decide (song.id ∉ avoidSongIds)
  let candidates := buildCandidatePool st.songs st.playedSongIds avoidSongIds tempo
  let scored := scoredShortlist st candidates tempo key partnerSong avoidArtists rnd.r1
  if scored.length = 0 then
    if 0 < unplayedAtTempo.length then
      let allScored :=
        scoredShortlist st allSongsAtTempo tempo key partnerSong avoidArtists rnd.r2
      if 0 < allScored.length then
        ((getChoice rnd.pick2 (allScored.take (min 20 allScored.length))).map Prod.fst, st)
      else
        (relaxedStage st allSongsAtTempo tempo key partnerSong rnd.r3 rnd.pick3, st)
    else
      (relaxedStage st candidates tempo key partnerSong rnd.r3 rnd.pick3, st)
  else
    let topCandidates := scored.take (min 20 scored.length)
    let selected := (getChoice rnd.pick1 topCandidates).map Prod.fst
    if shouldResetPlayedSongs ∧ st.playedSongIds ≠ ∅ then
      (selected, { st with playedSongIds := ∅, playedPairs := ∅ })
    else
      (selected, st)

/-- `ALL_TEMPOS` (src/music/types). Modelled from the spec: the README and the
class header fix the tempo set and its cyclic order as 84 → 94 → 102. -/
def ALL_TEMPOS : List ℕ := [84, 94, 102]

/-- The key walk list of the progression generator (line 3795). -/
def KEYS_TO_USE : List ℤ := [1, 2, 3, 4, 5, 6, 7, 8, 9, 10]

/-- `(key, tempo)` progression entry (line 1621). -/
structure ProgressionEntry where
  key : ℤ
  tempo : ℕ
deriving DecidableEq, Repr

/-- Number of library songs at a tempo (constructor line 1700). -/
def songCountAt (songs : List Song) (tempo : ℕ) : ℕ :=
  (songs.filter fun s => decide (s.bpm = tempo)).length

/-- Minimum per-tempo song count (constructor lines 1704-1705, `Math.min` over
the per-tempo counts). -/
def minSongCount (songs : List Song) : ℕ :=
  match ALL_TEMPOS.map (songCountAt songs) with
  | [] => 0
  | c :: cs => cs.foldl min c

/-- JS `Math.round`: round half toward positive infinity. -/
def jsRound (q : ℚ) : ℤ := ⌊q + 1 / 2⌋

/-- Weighted pair count per tempo (constructor lines 1708-1712):
`Math.round(10 * (songCount / minSongCount))` with `songCountsByTempo.get(tempo)
|| 1` turning a zero count into 1 (JS `||` on a falsy number). The source's
floating-point quotient is idealised as the rational quotient; a zero
`minSongCount` (infinite in JS) is outside every theorem's hypotheses. -/
def tempoPairCount (songs : List Song) (tempo : ℕ) : ℤ :=
  let songCount : ℕ := if songCountAt songs tempo = 0 then 1 else songCountAt songs tempo
  jsRound (10 * ((songCount : ℚ) / (minSongCount songs : ℚ)))

/-- Inner per-tempo loop of `generateProgressionFromPoint` (lines 3808-3816):
the weighted number of entries for one tempo, keys cycling from the start key.
The lookup `this.tempoPairCounts.get(tempo) || 10` turns a falsy stored count
into 10. -/
def progressionBlock (songs : List Song) (startKeyIndex : ℕ) (tempo : ℕ) :
    List ProgressionEntry :=
  let pairCount : ℤ :=
    if tempoPairCount songs tempo = 0 then 10 else tempoPairCount songs tempo
  (List.range pairCount.toNat).map fun pairIndex =>
    { key := KEYS_TO_USE.getD ((startKeyIndex + pairIndex) % KEYS_TO_USE.length) 0
      tempo := tempo }

/-- `generateProgressionFromPoint` (lines 3793-3820): ten cycles; each cycle
walks the tempos cyclically from the start tempo, emitting each tempo's
weighted block. JS `indexOf` would give -1 for an argument outside the typed
`Key`/`Tempo` domains; `List.findIdx` gives the length there instead, and the
theorems only use in-domain arguments (where both agree). -/
def generateProgressionFromPoint (songs : List Song) (startKey : ℤ)
    (startTempo : ℕ) : List ProgressionEntry :=
  let startKeyIndex := KEYS_TO_USE.findIdx fun k => decide (k = startKey)
  let startTempoIndex := ALL_TEMPOS.findIdx fun t => decide (t = startTempo)
  (List.range 10).flatMap fun _ =>
    (List.range ALL_TEMPOS.length).flatMap fun tempoOffset =>
      progressionBlock songs startKeyIndex
        (ALL_TEMPOS.getD ((startTempoIndex + tempoOffset) % ALL_TEMPOS.length) 0)

/-- Progression as the claim describes it (refinement reference): walk the
tempos cyclically from the start tempo; for each tempo emit
`round(10 * count / minCount)` entries — so the tempo with the fewest songs
anchors at 10 — with the keys cycling through 1..10 from the start key. -/
def progressionFromPointSpec (songs : List Song) (startKey : ℤ)
    (startTempo : ℕ) : List ProgressionEntry :=
  let startKeyIndex := KEYS_TO_USE.findIdx fun k => decide (k = startKey)
  let startTempoIndex := ALL_TEMPOS.findIdx fun t => decide (t = startTempo)
  (List.range 10).flatMap fun _ =>
    (List.range ALL_TEMPOS.length).flatMap fun tempoOffset =>
      let tempo := ALL_TEMPOS.getD ((startTempoIndex + tempoOffset) % ALL_TEMPOS.length) 0
      let pairCount : ℤ :=
        jsRound (10 * ((songCountAt songs tempo : ℚ) / (minSongCount songs : ℚ)))
      (List.range pairCount.toNat).map fun pairIndex =>
        { key := KEYS_TO_USE.getD ((startKeyIndex + pairIndex) % KEYS_TO_USE.length) 0
          tempo := tempo }

/-- The `PlayerState` snapshot fields (lines 1587-1608) touched by the
operations modelled here; the mode/recording flags are carried unchanged by
these operations and are omitted. -/
structure MState where
  key : ℤ
  tempo : ℕ
  isPlaying : Bool
  isPaused : Bool
  currentPair : Option TrackPair
  nextPair : Option TrackPair
  progressIndex : ℕ
  canSkipBack : Bool
  canSkipForward : Bool
deriving DecidableEq

/-- The player fields (lines 1628-1686) read or written by `setTempo` and the
path-based `getNextSong` it calls. `pathIndexesByTempo` is the tempo-indexed
cursor map (absent keys read as 0, matching the source's `get(tempo) || 0`);
`scheduledTimeouts` holds the ids of the pending UI timers (`mainStart` /
`pairEnd` emission, lines 3219-3229). -/
structure Player where
  songs : List Song
  progression : List ProgressionEntry
  progressIndex : ℕ
  hamiltonianPath : List Song
  pathIndexesByTempo : ℕ → ℕ
  state : MState
  playedSongIds : Finset ℕ
  scheduledTimeouts : List ℕ
  playHistory : List TrackPair

/-- `updateState` (lines 2926-2934): merge the updates into the snapshot and
recompute the two skip capabilities. -/
def updateState (p : Player) (f : MState → MState) : Player :=
  let s := f p.state
  { p with state :=
      { s with canSkipBack := decide (0 < p.playHistory.length)
               canSkipForward := true } }

/-- Exit signal of the `getNextSong` search loop (lines 2075-2127). -/
inductive SearchOutcome where
  | found (song : Song) (nextIndex : ℕ)
  | fallbackWrapped (song : Song)
  | reshuffle
  | exhausted (fallbackSong : Option Song)
deriving DecidableEq

/-- The `while (attempts < maxAttempts)` search loop of `getNextSong`
(lines 2075-2127), with the remaining attempt budget as fuel. Each iteration:
wrap the index past the end; skip holes (`continue` bypasses the wrap check);
return a tempo-matching song with a non-avoided artist (cursor moves past it);
remember the first avoided tempo match as fallback; after advancing, once
wrapped back to the start index, return the fallback or signal a reshuffle. -/
def getNextSongSearch (path : List Song) (tempo : ℕ) (avoidArtists : List String)
    (startIndex : ℕ) : ℕ → Bool → Option Song → ℕ → SearchOutcome
  | _, _, fallbackSong, 0 => .exhausted fallbackSong
  | searchIndex, wrapped, fallbackSong, fuel + 1 =>
    let sw : ℕ × Bool :=
      if path.length ≤ searchIndex then (0, true) else (searchIndex, wrapped)
    let searchIndex := sw.1
    let wrapped := sw.2
    match path[searchIndex]? with
    | none =>
      getNextSongSearch path tempo avoidArtists startIndex
        (searchIndex + 1) wrapped fallbackSong fuel
    | some song =>
      let shouldAvoid := avoidArtists ≠ [] ∧ song.artist ∈ avoidArtists
      if song.bpm = tempo ∧ ¬shouldAvoid then
        .found song (searchIndex + 1)
      else
        let fallbackSong :=
          if song.bpm = tempo ∧ shouldAvoid ∧ fallbackSong = none then some song
          else fallbackSong
        let searchIndex := searchIndex + 1
        if wrapped ∧ startIndex ≤ searchIndex then
          match fallbackSong with
          | some f => .fallbackWrapped f
          | none => .reshuffle
        else
          getNextSongSearch path tempo avoidArtists startIndex
            searchIndex wrapped fallbackSong fuel

/-- Path-based `getNextSong` (lines 2059-2146), the selector `setKey`/`setTempo`
use. The source restarts itself after an emergency reshuffle (line 2125); that
self-call can loop forever when no song matches the tempo, so it is indexed by
recursion fuel, `.error` standing for a non-returning source run. JS `indexOf`
on the fallback (an element of the path) is the first structurally equal
element, `List.findIdx`. -/
def getNextSong (p : Player) (tempo : ℕ) (avoidArtists : List String) :
    ℕ → Except String (Song × Player)
  | 0 => .error "recursion fuel exhausted"
  | rfuel + 1 =>
    let p := if p.hamiltonianPath.length = 0 then
        { p with hamiltonianPath := p.songs, pathIndexesByTempo := fun _ => 0 }
      else p
    let startIndex := p.pathIndexesByTempo tempo
    let maxAttempts := p.hamiltonianPath.length * 2
    match getNextSongSearch p.hamiltonianPath tempo avoidArtists startIndex
        startIndex false none maxAttempts with
    | .found song nextIndex =>
      .ok (song, { p with pathIndexesByTempo :=
        fun t => if t = tempo then nextIndex else p.pathIndexesByTempo t })
    | .fallbackWrapped f =>
      let fallbackIndex := p.hamiltonianPath.findIdx fun s => decide (s = f)
      .ok (f, { p with pathIndexesByTempo :=
        fun t => if t = tempo then fallbackIndex + 1 else p.pathIndexesByTempo t })
    | .reshuffle =>
      getNextSong
        { p with hamiltonianPath := p.songs, pathIndexesByTempo := fun _ => 0 }
        tempo [] rfuel
    | .exhausted fallbackSong =>
      match fallbackSong with
      | some f => .ok (f, p)
      | none =>
        let p := { p with hamiltonianPath := p.songs,
                          pathIndexesByTempo := fun _ => 0 }
        match (p.hamiltonianPath.find? fun s => decide (s.bpm = tempo)).orElse
            (fun _ => p.hamiltonianPath.head?) with
        | some lastResort => .ok (lastResort, p)
        | none => .error "No songs available"

/-- `recalculateHamiltonianPath` (lines 3763-3785): rebuild the path from the
unplayed pool (clearing the played set when that pool is small), zero the
cursors and regenerate the progression from the chosen key/tempo. The
`tempoPairCounts` field is fixed at construction from the library, so it is
recomputed here from `songs`. -/
def recalculateHamiltonianPath (p : Player) (startKey : ℤ) (startTempo : ℕ) :
    Player :=
  let unplayedSongs := p.songs.filter fun song => decide (song.id ∉ p.playedSongIds)
  let p := if unplayedSongs.length < 20 then
      { p with playedSongIds := ∅, hamiltonianPath := p.songs }
    else
      { p with hamiltonianPath := unplayedSongs }
  { p with pathIndexesByTempo := fun _ => 0
           progression := generateProgressionFromPoint p.songs startKey startTempo
           progressIndex := 0 }

/-- `setTempo` (lines 3863-3899). While playing: recalculate the path and
progression from the current key and the new tempo, assemble a fresh next pair
from the next progression entry (avoiding the current pair's artists), and
merge `{ tempo, nextPair, progressIndex }` into the snapshot — the current pair
and the pending timers are never touched. The `preloadNextPair` fire-and-forget
is cache-only and carries no state. `getNextSong` recursion fuel 2 covers the
at-most-one emergency restart of every terminating source run. -/
def setTempo (p : Player) (tempo : ℕ) : Except String Player :=
  if ¬ p.state.isPlaying then
    let p := { p with
      progression := generateProgressionFromPoint p.songs p.state.key tempo
      progressIndex := 0 }
    .ok (updateState p fun s => { s with tempo := tempo })
  else
    let currentKey := p.state.key
    let p := recalculateHamiltonianPath p currentKey tempo
    match p.progression[(p.progressIndex + 1) % p.progression.length]? with
    | none => .error "Failed to get next progression entry"
    | some nextEntry =>
      let avoidArtists := match p.state.currentPair with
        | some cp => [cp.track1.song.artist, cp.track2.song.artist]
        | none => []
      match getNextSong p nextEntry.tempo avoidArtists 2 with
      | .error e => .error e
      | .ok (song1, p) =>
        match getNextSong p nextEntry.tempo (avoidArtists ++ [song1.artist]) 2 with
        | .error e => .error e
        | .ok (song2, p) =>
          let newNext := createTrackPair song1 song2 nextEntry.key nextEntry.tempo
          .ok (updateState p fun s =>
            { s with tempo := tempo
                     nextPair := some newNext
                     progressIndex := p.progressIndex })

/-! Helper lemmas shared by the claim theorems. -/

/-- One toggle call from any flag state leaves at most one mode active. -/
theorem applyModeOp_not_both (s : ModeFlags) (op : ModeOp) :
    ¬((applyModeOp s op).mannieFreshMode = true ∧
      (applyModeOp s op).eightZeroEightMode = true) := by
  rcases s with ⟨mf, e⟩
  cases op <;> cases mf <;> cases e <;> decide

/-- Mode exclusivity is preserved along any toggle sequence. -/
theorem foldl_modeOps_not_both (ops : List ModeOp) (s : ModeFlags)
    (hs : ¬(s.mannieFreshMode = true ∧ s.eightZeroEightMode = true)) :
    ¬((ops.foldl applyModeOp s).mannieFreshMode = true ∧
      (ops.foldl applyModeOp s).eightZeroEightMode = true) := by
  induction ops generalizing s with
  | nil => exact hs
  | cons op ops ih => exact ih (applyModeOp s op) (applyModeOp_not_both s op)

/-! Claim theorems. -/

/-- C1. For every pair assembled by the player (two primary tracks built at the
pair's tempo, any hidden tracks attached) and scheduled for playback, the
scheduled main-section start minus the pair start equals the ideal intro
duration, 16 beats times 60/T, and the pair end equals main start plus
64 beats times 60/T — for every possible list of decoded buffer durations. -/
theorem timing_grid_exactness (song1 song2 : Song) (key : ℤ) (tempo : ℕ)
    (t3 t4 : Option Track) (startTime : ℚ) (bufferDurations : List ℚ) :
    (playPairSchedule (addHiddenTracks (createTrackPair song1 song2 key tempo) t3 t4)
        startTime bufferDurations).mainStartTime -
      (playPairSchedule (addHiddenTracks (createTrackPair song1 song2 key tempo) t3 t4)
        startTime bufferDurations).startTime = 16 * (60 / (tempo : ℚ)) ∧
    (playPairSchedule (addHiddenTracks (createTrackPair song1 song2 key tempo) t3 t4)
        startTime bufferDurations).pairEndTime =
      (playPairSchedule (addHiddenTracks (createTrackPair song1 song2 key tempo) t3 t4)
        startTime bufferDurations).mainStartTime + 64 * (60 / (tempo : ℚ)) := by
  constructor <;>
    simp [playPairSchedule, addHiddenTracks, createTrackPair, createTrack,
      calculateTrackDuration, BEAT_COUNTS]

/-- C7. In every state reachable from the initial flag state by any sequence of
`toggleMannieFreshMode` / `toggle808Mode` calls, the two modes are never both
active. -/
theorem mode_exclusivity_invariant (ops : List ModeOp) :
    ¬((ops.foldl applyModeOp initialModeFlags).mannieFreshMode = true ∧
      (ops.foldl applyModeOp initialModeFlags).eightZeroEightMode = true) :=
  foldl_modeOps_not_both ops initialModeFlags (by decide)

/-- C10. For every base key in 1..10 and every relationship offset in the fixed
list, `getMusicallyRelatedKey` returns a key in 1..10 (the clamp
`max 1 (min 10 _)` guarantees it). -/
theorem related_key_in_range (baseKey relationship : ℤ)
    (hk1 : 1 ≤ baseKey) (hk2 : baseKey ≤ 10)
    (hrel : relationship ∈ keyRelationships) :
    1 ≤ getMusicallyRelatedKey baseKey relationship ∧
      getMusicallyRelatedKey baseKey relationship ≤ 10 := by
  unfold getMusicallyRelatedKey
  exact ⟨le_max_left _ _, max_le (by norm_num) (min_le_left _ _)⟩

/-- C10 witness: the range theorem applied at base key 5 and relationship 7. -/
theorem related_key_in_range_witness :
    (1 ≤ (5 : ℤ) ∧ (5 : ℤ) ≤ 10 ∧ (7 : ℤ) ∈ keyRelationships) ∧
      (1 ≤ getMusicallyRelatedKey 5 7 ∧ getMusicallyRelatedKey 5 7 ≤ 10) :=
  ⟨⟨by norm_num, by norm_num, by decide⟩,
    related_key_in_range 5 7 (by norm_num) (by norm_num) (by decide)⟩

/-- C8. With a fetch that always fails, the pending-load dedup intercepts the
internal retry call (the URL is in `pendingLoads`, so the retry awaits the very
promise that is awaiting it): the load promise never settles at any fuel — it
neither refetches nor rejects — whereas the retry loop the claim describes
(modelled directly) rejects after the 500 ms / 1 s / 2 s backoff sequence. -/
theorem load_retry_deadlock :
    (∀ fuel, loadAudioBufferR (fun _ => false) false 0 fuel = none) ∧
      performLoadDirect (fun _ => false) 0 =
        (.error "Failed to load after 3 retries", [500, 1000, 2000]) := by
  constructor
  · have aux : ∀ fuel, performLoadR (fun _ => false) 0 fuel = none ∧
        ∀ rc, loadAudioBufferR (fun _ => false) true rc fuel = none := by
      intro fuel
      induction fuel with
      | zero => exact ⟨rfl, fun _ => rfl⟩
      | succ n ih =>
        refine ⟨?_, fun rc => ?_⟩
        · simpa [performLoadR] using ih.2 1
        · simpa [loadAudioBufferR] using ih.1
    intro fuel
    cases fuel with
    | zero => rfl
    | succ n => simpa [loadAudioBufferR] using (aux n).1
  · simp [performLoadDirect]

/-- C4. The candidate pool built by a selection call is exactly the pool the
claim describes: unplayed songs at the target tempo when any exist, otherwise
all songs at the target tempo, ids-to-avoid excluded in both cases. -/
theorem candidate_pool_matches_spec (songs : List Song) (played : Finset ℕ)
    (avoidSongIds : List ℕ) (tempo : ℕ) :
    buildCandidatePool songs played avoidSongIds tempo =
      candidatePoolSpec songs played avoidSongIds tempo := by
  simp only [buildCandidatePool, candidatePoolSpec, List.filter_filter,
    Bool.and_assoc, List.length_pos]

/-- A choice from a non-empty list succeeds. -/
theorem getChoice_isSome {α : Type} (pick : ℕ) {l : List α} (h : l ≠ []) :
    (getChoice pick l).isSome = true := by
  unfold getChoice
  rw [List.getElem?_eq_getElem (Nat.mod_lt _ (List.length_pos.mpr h))]
  rfl

/-- The top-20 slice of a non-empty shortlist is non-empty. -/
theorem take_min20_ne_nil {α : Type} {l : List α} (h : l ≠ []) :
    l.take (min 20 l.length) ≠ [] := by
  have hl := List.length_pos.mpr h
  rw [← List.length_pos, List.length_take]
  omega

/-- A mapped choice from a non-empty list succeeds. -/
theorem map_getChoice_isSome {α β : Type} (f : α → β) (pick : ℕ) {l : List α}
    (h : l ≠ []) : ((getChoice pick l).map f).isSome = true := by
  obtain ⟨x, hx⟩ := Option.isSome_iff_exists.mp (getChoice_isSome pick h)
  simp [hx]

/-- The fall-through stage always produces a song when its candidate list is
non-empty (the last resort returns the head unconditionally). -/
theorem relaxedStage_isSome (st : SelState) {candidates : List Song}
    (h : candidates ≠ []) (tempo : ℕ) (key : ℤ) (partnerSong : Option Song)
    (rand : ℕ → ℕ × ℚ) (pick : ℕ) :
    (relaxedStage st candidates tempo key partnerSong rand pick).isSome = true := by
  simp only [relaxedStage]
  split
  · cases candidates with
    | nil => exact absurd rfl h
    | cons a l => rfl
  · next hlen =>
    have hne : scoredShortlist st candidates tempo key partnerSong [] rand ≠ [] := by
      intro hc
      exact hlen (by simp [hc])
    exact map_getChoice_isSome _ _ (take_min20_ne_nil hne)

section ConcreteRuns

/-!
The concrete counterexample and witness runs below evaluate the embedded
selection pipeline by kernel reduction; Batteries marks the rational
operations irreducible for the elaborator, so they are made semireducible
locally (the kernel is unaffected).
-/

attribute [local semireducible] Rat.add Rat.sub Rat.mul Rat.inv

set_option maxHeartbeats 1000000

/-- Fixed all-zero randomness used for the concrete runs below. -/
def constRand : SmartRand :=
  ⟨fun _ => (0, 0), fun _ => (0, 0), fun _ => (0, 0), 0, 0, 0⟩

/-- Two-song library by a single artist, used to exercise the last resort. -/
def dSongA : Song := ⟨1, "t1", "a", 1, 84⟩

/-- Second song of the shared-artist library. -/
def dSongB : Song := ⟨2, "t2", "a", 1, 84⟩

/-- Selection state over the shared-artist library, nothing played yet. -/
def dStateC2 : SelState := ⟨[dSongA, dSongB], ∅, ∅, [], []⟩

/-- C2 counterexample: selecting a partner for `dSongA` over a library whose
every song shares the partner's artist drives every scoring stage to the
`-1000` sentinel, and the last resort then returns `dSongA` itself — a
candidate whose score is exactly `-1000` (not greater) is returned, refuting
"can never be returned". -/
theorem invalid_candidate_returned_by_last_resort :
    (getNextSongSmart dStateC2 84 1 (some dSongA) [] [] constRand).1 = some dSongA ∧
      scoreSong dStateC2 dSongA 84 1 (some dSongA) [] 0 0 = -1000 ∧
      artistsMatch dSongA.artist dSongA.artist = true := by decide

/-- C2 (amended). Scoring a candidate against a non-null partner returns the
`-1000` sentinel whenever the artists match fuzzily or the unordered pair was
already played — for every randomness draw — and every scored shortlist (the
pipeline each selection stage applies) contains only candidates with score
strictly above `-1000`; only the unconditional last-resort fallback can return
a sentinel-scored song. -/
theorem sentinel_and_shortlist_filter :
    (∀ (st : SelState) (song : Song) (tempo : ℕ) (key : ℤ) (partner : Song)
        (avoidArtists : List String) (approach : ℕ) (variance : ℚ),
        artistsMatch song.artist partner.artist = true ∨
          isPairPlayed st song partner = true →
        scoreSong st song tempo key (some partner) avoidArtists approach variance
          = -1000) ∧
    (∀ (st : SelState) (candidates : List Song) (tempo : ℕ) (key : ℤ)
        (partnerSong : Option Song) (avoidArtists : List String)
        (rand : ℕ → ℕ × ℚ) (item : Song × ℚ),
        item ∈ scoredShortlist st candidates tempo key partnerSong avoidArtists rand →
        -1000 < item.2) := by
  constructor
  · intro st song tempo key partner avoidArtists approach variance h
    rcases h with h | h
    · simp [scoreSong, h]
    · by_cases h2 : artistsMatch song.artist partner.artist = true
      · simp [scoreSong, h2]
      · simp [scoreSong, h2, h]
  · intro st candidates tempo key partnerSong avoidArtists rand item h
    unfold scoredShortlist at h
    rw [(List.perm_insertionSort _ _).mem_iff] at h
    exact of_decide_eq_true (List.mem_filter.mp h).2

/-- C2 witness: the sentinel branch applied at a concrete shared-artist pair. -/
theorem sentinel_and_shortlist_filter_witness :
    artistsMatch dSongA.artist dSongA.artist = true ∧
      scoreSong dStateC2 dSongA 84 1 (some dSongA) [] 0 0 = -1000 :=
  ⟨by decide,
    sentinel_and_shortlist_filter.1 dStateC2 dSongA 84 1 dSongA [] 0 0
      (Or.inl (by decide))⟩

/-- Single-song library at 84 BPM. -/
def eSongC3 : Song := ⟨1, "t", "a", 1, 84⟩

/-- Selection state over the 84-BPM-only library. -/
def eStateC3 : SelState := ⟨[eSongC3], ∅, ∅, [], []⟩

/-- C3 counterexample: with a non-empty library containing no song at the
target tempo, `getNextSongSmart` falls to `candidates[0]!` on an empty pool and
returns `undefined` (`none`) — it does not return a song. -/
theorem selector_returns_none_without_tempo_match :
    eStateC3.songs ≠ [] ∧
      (getNextSongSmart eStateC3 94 1 none [] [] constRand).1 = none := by decide

/-- C3 (amended). Whenever some library song sits at the target tempo and is
not id-avoided, `getNextSongSmart` returns a song (some stage always yields
one: the main shortlist, the tempo-widened rescore, the relaxed rescore, or
the unconditional last resort); with no such song the call returns
`undefined`. -/
theorem selector_total_with_tempo_match (st : SelState) (tempo : ℕ) (key : ℤ)
    (partnerSong : Option Song) (avoidArtists : List String)
    (avoidSongIds : List ℕ) (rnd : SmartRand) (s : Song)
    (hs : s ∈ st.songs) (hbpm : s.bpm = tempo) (hid : s.id ∉ avoidSongIds) :
    ((getNextSongSmart st tempo key partnerSong avoidArtists avoidSongIds
      rnd).1).isSome = true := by
  have hall : st.songs.filter
      (fun song => decide (song.bpm = tempo) && decide (song.id ∉ avoidSongIds)) ≠ [] :=
    List.ne_nil_of_mem (List.mem_filter.mpr ⟨hs, by simp [hbpm, hid]⟩)
  have hpool : buildCandidatePool st.songs st.playedSongIds avoidSongIds tempo ≠ [] := by
    simp only [buildCandidatePool]
    split
    · next hpos => exact List.length_pos.mp hpos
    · exact hall
  simp only [getNextSongSmart]
  split_ifs with h1 h2 h3 h4
  · exact map_getChoice_isSome _ _ (take_min20_ne_nil (List.length_pos.mp h3))
  · exact relaxedStage_isSome st (by simpa using hall) _ _ _ _ _
  · exact relaxedStage_isSome st (by simpa using hpool) _ _ _ _ _
  · exact map_getChoice_isSome _ _
      (take_min20_ne_nil (List.length_pos.mp (Nat.pos_of_ne_zero h1)))
  · exact map_getChoice_isSome _ _
      (take_min20_ne_nil (List.length_pos.mp (Nat.pos_of_ne_zero h1)))

/-- C3 witness: the totality theorem applied at the single-song library with a
matching target tempo. -/
theorem selector_total_with_tempo_match_witness :
    (eSongC3 ∈ eStateC3.songs ∧ eSongC3.bpm = 84 ∧ eSongC3.id ∉ ([] : List ℕ)) ∧
      ((getNextSongSmart eStateC3 84 1 none [] [] constRand).1).isSome = true :=
  ⟨⟨by decide, by decide, by decide⟩,
    selector_total_with_tempo_match eStateC3 84 1 none [] [] constRand eSongC3
      (by decide) (by decide) (by decide)⟩

/-- Single-song library whose only song has already been played. -/
def cStateC5 : SelState := ⟨[eSongC3], {1}, ∅, [], []⟩

/-- C5 counterexample: the call observes fewer than 20 unplayed songs and does
return a song, yet the run goes through the last-resort path (the partner
shares the candidate's artist, emptying every shortlist) and the played-song
set is NOT cleared — the reset is skipped on this returning execution path. -/
theorem fallback_path_skips_history_reset :
    (cStateC5.songs.filter fun song =>
        decide (song.id ∉ cStateC5.playedSongIds) &&
          decide (song.id ∉ ([] : List ℕ))).length < 20 ∧
      ((getNextSongSmart cStateC5 84 1 (some eSongC3) [] [] constRand).1).isSome
        = true ∧
      (getNextSongSmart cStateC5 84 1 (some eSongC3) [] [] constRand).2.playedSongIds
        ≠ ∅ := by decide

/-- C5 (amended). The played-history reset is a side effect of the main
selection path only: when the initial scored shortlist is non-empty, a call
observing fewer than 20 unplayed songs with a non-empty played set clears both
the played-song-ids set and the played-pairs set; when the initial shortlist
is empty (every fallback path), the selection state is returned unchanged. -/
theorem history_reset_on_main_path (st : SelState) (tempo : ℕ) (key : ℤ)
    (partnerSong : Option Song) (avoidArtists : List String)
    (avoidSongIds : List ℕ) (rnd : SmartRand) :
    (scoredShortlist st (buildCandidatePool st.songs st.playedSongIds avoidSongIds tempo)
        tempo key partnerSong avoidArtists rnd.r1 ≠ [] →
      (st.songs.filter fun song =>
          decide (song.id ∉ st.playedSongIds) &&
            decide (song.id ∉ avoidSongIds)).length < 20 →
      st.playedSongIds ≠ ∅ →
      (getNextSongSmart st tempo key partnerSong avoidArtists avoidSongIds
          rnd).2.playedSongIds = ∅ ∧
        (getNextSongSmart st tempo key partnerSong avoidArtists avoidSongIds
          rnd).2.playedPairs = ∅) ∧
    (scoredShortlist st (buildCandidatePool st.songs st.playedSongIds avoidSongIds tempo)
        tempo key partnerSong avoidArtists rnd.r1 = [] →
      (getNextSongSmart st tempo key partnerSong avoidArtists avoidSongIds
        rnd).2 = st) := by
  constructor
  · intro hne hlt hpl
    simp only [getNextSongSmart]
    rw [if_neg (by simpa [List.length_eq_zero] using hne), if_pos ⟨hlt, hpl⟩]
    exact ⟨rfl, rfl⟩
  · intro heq
    simp only [getNextSongSmart]
    rw [if_pos (by simp [heq])]
    split_ifs <;> rfl

/-- Single-song library with an unrelated played id, driving the main path. -/
def wStateC5 : SelState := ⟨[eSongC3], {2}, ∅, [], []⟩

/-- C5 witness: the main-path reset applied at a concrete state with fewer than
20 unplayed songs and a non-empty played set. -/
theorem history_reset_on_main_path_witness :
    (scoredShortlist wStateC5
        (buildCandidatePool wStateC5.songs wStateC5.playedSongIds [] 84)
        84 1 none [] constRand.r1 ≠ []) ∧
      (wStateC5.songs.filter fun song =>
          decide (song.id ∉ wStateC5.playedSongIds) &&
            decide (song.id ∉ ([] : List ℕ))).length < 20 ∧
      wStateC5.playedSongIds ≠ ∅ ∧
      ((getNextSongSmart wStateC5 84 1 none [] [] constRand).2.playedSongIds = ∅ ∧
        (getNextSongSmart wStateC5 84 1 none [] [] constRand).2.playedPairs = ∅) :=
  ⟨by decide, by decide, by decide,
    (history_reset_on_main_path wStateC5 84 1 none [] [] constRand).1
      (by decide) (by decide) (by decide)⟩

end ConcreteRuns

/-- The per-tempo minimum really is a lower bound for every tempo in the set. -/
theorem minSongCount_le (songs : List Song) {t : ℕ} (ht : t ∈ ALL_TEMPOS) :
    minSongCount songs ≤ songCountAt songs t := by
  have hm : minSongCount songs =
      min (min (songCountAt songs 84) (songCountAt songs 94))
        (songCountAt songs 102) := rfl
  rw [hm]
  simp only [ALL_TEMPOS, List.mem_cons, List.mem_singleton,
    List.not_mem_nil, or_false] at ht
  rcases ht with rfl | rfl | rfl <;> omega

/-- Under a positive minimum count, the weighted pair count of every tempo in
the set is at least the base 10. -/
theorem tempoPairCount_ge_ten (songs : List Song) (hmin : 0 < minSongCount songs)
    {t : ℕ} (ht : t ∈ ALL_TEMPOS) : (10 : ℤ) ≤ tempoPairCount songs t := by
  have hle := minSongCount_le songs ht
  have hcpos : 0 < songCountAt songs t := lt_of_lt_of_le hmin hle
  have hm : (0 : ℚ) < (minSongCount songs : ℚ) := by exact_mod_cast hmin
  have hq : (10 : ℚ) + 1 / 2 ≤
      10 * ((songCountAt songs t : ℚ) / (minSongCount songs : ℚ)) + 1 / 2 := by
    have h1 : (1 : ℚ) ≤ (songCountAt songs t : ℚ) / (minSongCount songs : ℚ) := by
      rw [le_div_iff hm, one_mul]
      exact_mod_cast hle
    linarith
  have h105 : (10 : ℤ) = ⌊(10 : ℚ) + 1 / 2⌋ := by
    rw [show ((10 : ℚ) + 1 / 2) = 1 / 2 + ((10 : ℤ) : ℚ) by push_cast; ring,
      Int.floor_add_int]
    norm_num [Int.floor_eq_zero_iff, Set.mem_Ico]
  simp only [tempoPairCount, jsRound]
  rw [if_neg hcpos.ne', h105]
  exact Int.floor_le_floor hq

/-- Under a positive minimum count, the `|| 10` / `|| 1` falsy-value fallbacks
in the progression generator are inert and the stored weighted pair count is
the rounded proportional count the claim describes. -/
theorem pairCount_if_eq (songs : List Song) (hmin : 0 < minSongCount songs)
    {t : ℕ} (ht : t ∈ ALL_TEMPOS) :
    (if tempoPairCount songs t = 0 then 10 else tempoPairCount songs t) =
      jsRound (10 * ((songCountAt songs t : ℚ) / (minSongCount songs : ℚ))) := by
  have h10 := tempoPairCount_ge_ten songs hmin ht
  have hc : 0 < songCountAt songs t := lt_of_lt_of_le hmin (minSongCount_le songs ht)
  rw [if_neg (by omega)]
  simp only [tempoPairCount]
  rw [if_neg hc.ne']

/-- C6. With at least one song at the scarcest tempo, the generated progression
is exactly the claim's weighted walk — tempos cycling from the start tempo with
`round(10 * count/minCount)` entries each, keys cycling through 1..10 from the
start key — and the tempo with the fewest songs is anchored at 10 entries. -/
theorem progression_weighted_walk (songs : List Song) (startKey : ℤ)
    (startTempo : ℕ) (hmin : 0 < minSongCount songs) :
    generateProgressionFromPoint songs startKey startTempo =
      progressionFromPointSpec songs startKey startTempo ∧
    ∀ t ∈ ALL_TEMPOS, songCountAt songs t = minSongCount songs →
      tempoPairCount songs t = 10 := by
  constructor
  · simp only [generateProgressionFromPoint, progressionFromPointSpec]
    congr 1
    funext _
    congr 1
    funext o
    have hlt : (ALL_TEMPOS.findIdx (fun t => decide (t = startTempo)) + o) %
        ALL_TEMPOS.length < 3 := Nat.mod_lt _ (by norm_num [ALL_TEMPOS])
    have htmem : ALL_TEMPOS.getD
        ((ALL_TEMPOS.findIdx (fun t => decide (t = startTempo)) + o) %
          ALL_TEMPOS.length) 0 ∈ ALL_TEMPOS := by
      set i := (ALL_TEMPOS.findIdx (fun t => decide (t = startTempo)) + o) %
        ALL_TEMPOS.length with hi
      interval_cases i <;> simp [ALL_TEMPOS]
    simp only [progressionBlock]
    rw [pairCount_if_eq songs hmin htmem]
  · intro t ht hc
    have h10 := tempoPairCount_ge_ten songs hmin ht
    have hcpos : 0 < songCountAt songs t := hc ▸ hmin
    have hm : (0 : ℚ) < (minSongCount songs : ℚ) := by exact_mod_cast hmin
    have h2 : tempoPairCount songs t ≤ 10 := by
      simp only [tempoPairCount, jsRound]
      rw [if_neg hcpos.ne', hc, div_self hm.ne',
        show (10 : ℚ) * 1 + 1 / 2 = 1 / 2 + ((10 : ℤ) : ℚ) by push_cast; ring,
        Int.floor_add_int]
      norm_num [Int.floor_eq_zero_iff, Set.mem_Ico]
    omega

/-- Indexing into a range-driven flat map lands in the first block while the
index is within it. -/
theorem flatMap_range_getElem? {α : Type} (f : ℕ → List α) (n i : ℕ)
    (hn : 0 < n) (hi : i < (f 0).length) :
    ((List.range n).flatMap f)[i]? = (f 0)[i]? := by
  cases n with
  | zero => omega
  | succ m =>
    rw [List.range_succ_eq_map, List.flatMap_cons, List.getElem?_append, if_pos hi]

/-- A range-driven flat map is at least as long as its first block. -/
theorem flatMap_range_length_ge {α : Type} (f : ℕ → List α) (n : ℕ)
    (hn : 0 < n) : (f 0).length ≤ ((List.range n).flatMap f).length := by
  cases n with
  | zero => omega
  | succ m =>
    rw [List.range_succ_eq_map, List.flatMap_cons, List.length_append]
    omega

/-- With every tempo populated, the second entry of a freshly generated
progression carries the start tempo itself: the walk opens with the start
tempo's block, whose weighted length is at least 10. -/
theorem progression_second_entry (songs : List Song) (k : ℤ) {t : ℕ}
    (hmin : 0 < minSongCount songs) (ht : t ∈ ALL_TEMPOS) :
    ∃ kk, (generateProgressionFromPoint songs k t)[
        (0 + 1) % (generateProgressionFromPoint songs k t).length]? =
      some ⟨kk, t⟩ := by
  have hpc := tempoPairCount_ge_ten songs hmin ht
  simp only [generateProgressionFromPoint]
  set ski := KEYS_TO_USE.findIdx fun x => decide (x = k) with hski
  set sti := ALL_TEMPOS.findIdx fun x => decide (x = t) with hsti
  have h0 : ALL_TEMPOS.getD ((sti + 0) % ALL_TEMPOS.length) 0 = t := by
    rw [hsti]
    rcases (by simpa [ALL_TEMPOS] using ht : t = 84 ∨ t = 94 ∨ t = 102) with
      rfl | rfl | rfl <;> rfl
  have hblen : (progressionBlock songs ski t).length =
      (if tempoPairCount songs t = 0 then 10 else tempoPairCount songs t).toNat := by
    simp [progressionBlock]
  have hb2 : 2 ≤ (progressionBlock songs ski t).length := by
    rw [hblen, if_neg (by omega)]
    omega
  have hF0 : (fun o => progressionBlock songs ski
      (ALL_TEMPOS.getD ((sti + o) % ALL_TEMPOS.length) 0)) 0 =
      progressionBlock songs ski t := by
    simp only
    rw [h0]
  have hinner : (progressionBlock songs ski t).length ≤
      ((List.range ALL_TEMPOS.length).flatMap fun o => progressionBlock songs ski
        (ALL_TEMPOS.getD ((sti + o) % ALL_TEMPOS.length) 0)).length := by
    have := flatMap_range_length_ge
      (fun o => progressionBlock songs ski
        (ALL_TEMPOS.getD ((sti + o) % ALL_TEMPOS.length) 0))
      ALL_TEMPOS.length (by decide)
    rwa [hF0] at this
  have houter : ((List.range ALL_TEMPOS.length).flatMap fun o =>
        progressionBlock songs ski
          (ALL_TEMPOS.getD ((sti + o) % ALL_TEMPOS.length) 0)).length ≤
      ((List.range 10).flatMap fun _ =>
        (List.range ALL_TEMPOS.length).flatMap fun o => progressionBlock songs ski
          (ALL_TEMPOS.getD ((sti + o) % ALL_TEMPOS.length) 0)).length :=
    flatMap_range_length_ge
      (fun _ => (List.range ALL_TEMPOS.length).flatMap fun o =>
        progressionBlock songs ski (ALL_TEMPOS.getD ((sti + o) % ALL_TEMPOS.length) 0))
      10 (by norm_num)
  have hL2 : 2 ≤ ((List.range 10).flatMap fun _ =>
      (List.range ALL_TEMPOS.length).flatMap fun o => progressionBlock songs ski
        (ALL_TEMPOS.getD ((sti + o) % ALL_TEMPOS.length) 0)).length :=
    le_trans hb2 (le_trans hinner houter)
  have hmod : (0 + 1) % ((List.range 10).flatMap fun _ =>
      (List.range ALL_TEMPOS.length).flatMap fun o => progressionBlock songs ski
        (ALL_TEMPOS.getD ((sti + o) % ALL_TEMPOS.length) 0)).length = 1 :=
    Nat.mod_eq_of_lt (by omega)
  rw [hmod]
  rw [flatMap_range_getElem?
    (fun _ => (List.range ALL_TEMPOS.length).flatMap fun o =>
      progressionBlock songs ski (ALL_TEMPOS.getD ((sti + o) % ALL_TEMPOS.length) 0))
    10 1 (by norm_num) (by
      refine lt_of_lt_of_le ?_ hinner
      omega)]
  rw [flatMap_range_getElem?
    (fun o => progressionBlock songs ski
      (ALL_TEMPOS.getD ((sti + o) % ALL_TEMPOS.length) 0))
    ALL_TEMPOS.length 1 (by decide) (by rw [hF0]; omega)]
  rw [h0]
  refine ⟨KEYS_TO_USE.getD ((ski + 1) % KEYS_TO_USE.length) 0, ?_⟩
  simp only [progressionBlock, List.getElem?_map]
  rw [List.getElem?_range (by
    rw [hblen] at hb2
    omega)]
  rfl

/-- The path-based `getNextSong` only moves the path cursors (and possibly the
path itself): the snapshot, the pending timers, the play history and the
library are untouched, whatever the outcome. -/
theorem getNextSong_preserves (fuel : ℕ) :
    ∀ (p : Player) (tempo : ℕ) (avoid : List String) (s : Song) (p' : Player),
      getNextSong p tempo avoid fuel = .ok (s, p') →
      p'.state = p.state ∧ p'.scheduledTimeouts = p.scheduledTimeouts ∧
        p'.playHistory = p.playHistory ∧ p'.songs = p.songs := by
  induction fuel with
  | zero =>
    intro p t a s p' h
    exact absurd h (by simp [getNextSong])
  | succ n ih =>
    intro p t a s p' h
    simp only [getNextSong] at h
    split at h
    · injection h with h
      injection h with h1 h2
      subst h2
      split <;> exact ⟨rfl, rfl, rfl, rfl⟩
    · injection h with h
      injection h with h1 h2
      subst h2
      split <;> exact ⟨rfl, rfl, rfl, rfl⟩
    · have := ih _ _ _ _ _ h
      split at this <;> exact this
    · split at h
      · injection h with h
        injection h with h1 h2
        subst h2
        split <;> exact ⟨rfl, rfl, rfl, rfl⟩
      · split at h
        · injection h with h
          injection h with h1 h2
          subst h2
          split <;> exact ⟨rfl, rfl, rfl, rfl⟩
        · exact absurd h (by simp)

/-- `recalculateHamiltonianPath` rebuilds only the path, the cursors and the
progression; snapshot, timers, history and library are carried through, and
the progression restarts at index 0 from the freshly generated table. -/
theorem recalc_fields (p : Player) (k : ℤ) (t : ℕ) :
    (recalculateHamiltonianPath p k t).state = p.state ∧
      (recalculateHamiltonianPath p k t).scheduledTimeouts = p.scheduledTimeouts ∧
      (recalculateHamiltonianPath p k t).playHistory = p.playHistory ∧
      (recalculateHamiltonianPath p k t).songs = p.songs ∧
      (recalculateHamiltonianPath p k t).progression =
        generateProgressionFromPoint p.songs k t ∧
      (recalculateHamiltonianPath p k t).progressIndex = 0 := by
  simp only [recalculateHamiltonianPath]
  split <;> simp

/-- Core of the C9 correction: whenever `setTempo` succeeds while playing, the
produced player carries the new tempo in its snapshot immediately, the current
pair and the pending timer ids verbatim, and a freshly assembled next pair at
the new tempo. -/
theorem setTempo_ok_fields (p : Player) (tempo : ℕ) (p' : Player)
    (hplay : p.state.isPlaying = true) (hmin : 0 < minSongCount p.songs)
    (ht : tempo ∈ ALL_TEMPOS) (h : setTempo p tempo = .ok p') :
    p'.state.tempo = tempo ∧ p'.state.currentPair = p.state.currentPair ∧
      p'.scheduledTimeouts = p.scheduledTimeouts ∧
      p'.state.nextPair.map TrackPair.tempo = some tempo := by
  obtain ⟨hqs, hqt, hqh, hqsongs, hqprog, hqidx⟩ :=
    recalc_fields p p.state.key tempo
  simp only [setTempo] at h
  rw [if_neg (by simp [hplay])] at h
  rw [hqprog, hqidx] at h
  obtain ⟨kk, hkk⟩ := progression_second_entry p.songs p.state.key hmin ht
  rw [hkk] at h
  dsimp only at h
  split at h
  · exact absurd h (by simp)
  · next song1 p1 heq1 =>
    split at h
    · exact absurd h (by simp)
    · next song2 p2 heq2 =>
      injection h with h
      subst h
      obtain ⟨h1s, h1t, h1h, h1songs⟩ := getNextSong_preserves 2 _ _ _ _ _ heq1
      obtain ⟨h2s, h2t, h2h, h2songs⟩ := getNextSong_preserves 2 _ _ _ _ _ heq2
      refine ⟨rfl, ?_, ?_, rfl⟩
      · show p2.state.currentPair = p.state.currentPair
        rw [h2s, h1s, hqs]
      · show p2.scheduledTimeouts = p.scheduledTimeouts
        rw [h2t, h1t, hqt]

/-- C9 (amended). Calling `setTempo` while `isPlaying` leaves the current pair
and the already-scheduled timer ids unchanged and re-assembles only the next
pair at the new tempo, but the state snapshot's `tempo` field is updated
immediately at the `setTempo` call — not when the next pair becomes current. -/
theorem set_tempo_immediate_snapshot (p : Player) (tempo : ℕ)
    (hplay : p.state.isPlaying = true) (hmin : 0 < minSongCount p.songs)
    (ht : tempo ∈ ALL_TEMPOS) (hok : (setTempo p tempo).isOk = true) :
    (setTempo p tempo).map (fun q => q.state.tempo) = .ok tempo ∧
      (setTempo p tempo).map (fun q => q.state.currentPair) =
        .ok p.state.currentPair ∧
      (setTempo p tempo).map (fun q => q.scheduledTimeouts) =
        .ok p.scheduledTimeouts ∧
      (setTempo p tempo).map (fun q => q.state.nextPair.map TrackPair.tempo) =
        .ok (some tempo) := by
  cases hv : setTempo p tempo with
  | error e =>
    rw [hv] at hok
    exact absurd hok (by simp [Except.isOk, Except.toBool])
  | ok p' =>
    obtain ⟨h1, h2, h3, h4⟩ := setTempo_ok_fields p tempo p' hplay hmin ht hv
    simp [Except.map, h1, h2, h3, h4]

/-- Concrete four-song library: one song at 84 BPM, two at 94, one at 102. -/
def mSong84 : Song := ⟨1, "s1", "artist one", 1, 84⟩

/-- First 94-BPM song of the concrete library. -/
def mSong94a : Song := ⟨2, "s2", "artist two", 2, 94⟩

/-- Second 94-BPM song of the concrete library. -/
def mSong94b : Song := ⟨3, "s3", "artist three", 3, 94⟩

/-- The 102-BPM song of the concrete library. -/
def mSong102 : Song := ⟨4, "s4", "artist four", 4, 102⟩

/-- The concrete library itself. -/
def mLibrary : List Song := [mSong84, mSong94a, mSong94b, mSong102]

/-- C6 witness: the weighted-walk theorem applied at the concrete library. -/
theorem progression_weighted_walk_witness :
    0 < minSongCount mLibrary ∧
      (generateProgressionFromPoint mLibrary 1 84 =
          progressionFromPointSpec mLibrary 1 84 ∧
        ∀ t ∈ ALL_TEMPOS, songCountAt mLibrary t = minSongCount mLibrary →
          tempoPairCount mLibrary t = 10) :=
  ⟨by decide, progression_weighted_walk mLibrary 1 84 (by decide)⟩

section ConcreteSetTempo

attribute [local semireducible] Rat.add Rat.sub Rat.mul Rat.inv

set_option maxHeartbeats 4000000

set_option maxRecDepth 100000

/-- Currently audible pair of the concrete mid-playback player. -/
def cPair0 : TrackPair := createTrackPair mSong84 mSong94a 1 84

/-- Pre-assembled next pair of the concrete mid-playback player. -/
def cPair1 : TrackPair := createTrackPair mSong94b mSong102 2 84

/-- A concrete player mid-playback at 84 BPM with two pending UI timers. -/
def cPlayer : Player where
  songs := mLibrary
  progression := generateProgressionFromPoint mLibrary 1 84
  progressIndex := 0
  hamiltonianPath := mLibrary
  pathIndexesByTempo := fun _ => 0
  state :=
    { key := 1
      tempo := 84
      isPlaying := true
      isPaused := false
      currentPair := some cPair0
      nextPair := some cPair1
      progressIndex := 0
      canSkipBack := false
      canSkipForward := true }
  playedSongIds := ∅
  scheduledTimeouts := [11, 12]
  playHistory := []

/-- C9 counterexample: calling `setTempo 94` on the concrete player playing at
84 BPM succeeds and the state snapshot's tempo reads 94 immediately after the
call, while the current pair is still the original one (the next pair has not
become current) — refuting "the tempo field is updated only once the next pair
becomes the current pair". -/
theorem set_tempo_updates_snapshot_immediately :
    cPlayer.state.isPlaying = true ∧ cPlayer.state.tempo = 84 ∧
      ((setTempo cPlayer 94).map (fun q => q.state.tempo)).toOption = some 94 ∧
      ((setTempo cPlayer 94).map
          (fun q => decide (q.state.currentPair = cPlayer.state.currentPair))).toOption =
        some true := by
  refine ⟨rfl, rfl, by decide, by decide⟩

/-- C9 witness: the amended theorem applied at the concrete player. -/
theorem set_tempo_immediate_snapshot_witness :
    (cPlayer.state.isPlaying = true ∧ 0 < minSongCount cPlayer.songs ∧
        94 ∈ ALL_TEMPOS ∧ (setTempo cPlayer 94).isOk = true) ∧
      ((setTempo cPlayer 94).map (fun q => q.state.tempo) = .ok 94 ∧
        (setTempo cPlayer 94).map (fun q => q.state.currentPair) =
          .ok cPlayer.state.currentPair ∧
        (setTempo cPlayer 94).map (fun q => q.scheduledTimeouts) =
          .ok cPlayer.scheduledTimeouts ∧
        (setTempo cPlayer 94).map (fun q => q.state.nextPair.map TrackPair.tempo) =
          .ok (some 94)) :=
  ⟨⟨rfl, by decide, by decide, by decide⟩,
    set_tempo_immediate_snapshot cPlayer 94 rfl (by decide) (by decide) (by decide)⟩

end ConcreteSetTempo

end Kyyjibo
